import Mathlib

/-!
Verification development for the teamspace-app backend.

The Go sources embedded here:
  - backend/pkg/auth/auth.go       : session handling and the team allow-list check
  - backend/pkg/kubernetes/teamspace.go : the teamspace lifecycle manager
  - backend/cmd/server/main.go     : the HTTP handlers for create/delete/kubeconfig

Machine model: the Kubernetes cluster is a store of namespace objects and
secret objects; timestamps are naturals; each handler is a function from
(store, session, clocks, request) to (result, store).
-/

/-- Entry of a Go `map[string]string`, modelled as an association list with
unique keys by construction in this development; lookup takes the first match,
which agrees with map semantics on the lists we build. -/
def lookupAssoc (l : List (String × String)) (k : String) : Option String :=
  match l with
  | [] => none
  | (k2, v) :: rest => if k2 = k then some v else lookupAssoc rest k

/-- Teamspace struct from backend/pkg/kubernetes/teamspace.go (lines 15-21).
The Go field `Namespace` is rendered `nspace` because `namespace` is a Lean
keyword. -/
structure Teamspace where
  name : String
  nspace : String
  createdAt : Nat
  owner : String
  deletionTimestamp : Option Nat
deriving Repr, DecidableEq

/-- A Kubernetes namespace object as the lifecycle manager sees it: name,
labels, annotations (`annots`), the platform-assigned creation timestamp and
the deletion marker set once a delete has been requested. -/
structure NamespaceObj where
  name : String
  labels : List (String × String)
  annots : List (String × String)
  creationTimestamp : Nat
  deletionTimestamp : Option Nat
deriving Repr, DecidableEq

/-- A Kubernetes secret object: its namespace (`nspace`), its name and its
string-keyed data map. -/
structure SecretObj where
  nspace : String
  name : String
  data : List (String × String)
deriving Repr, DecidableEq

/-- The cluster-side store the stateless manager talks to: the namespace
objects and the secret objects. -/
structure ClusterState where
  namespaces : List NamespaceObj
  secrets : List SecretObj
deriving Repr, DecidableEq

/-- Look up a namespace object by its exact name, as the clientset
`Namespaces().Get`/`Create` collision check does. -/
def findNamespace (st : ClusterState) (nsp : String) : Option NamespaceObj :=
  st.namespaces.find? (fun ns => ns.name = nsp)

/-- Look up a secret by namespace and name, as `Secrets(namespace).Get` does. -/
def findSecret (st : ClusterState) (nsp sname : String) : Option SecretObj :=
  st.secrets.find? (fun s => s.nspace = nsp && s.name = sname)

/-- Errors surfaced by the manager's remote calls. `noOwnerLabel` is the
manager-built error of IsTeamspaceOwner for a namespace missing the owner
label (teamspace.go line 170). -/
inductive K8sError where
  | alreadyExists
  | notFound
  | noOwnerLabel (nsp : String)
deriving Repr, DecidableEq

/-- Function isUserAllowed from backend/pkg/auth/auth.go (lines 378-405): the
authorization predicate over the configured allow-list and a user's teams.
Go's `h.allowed == nil || len(h.allowed) == 0` collapses to `isEmpty` since a
nil Go slice has length zero. -/
def isUserAllowed (allowed : List String) (teams : List String) : Bool :=
  if allowed.isEmpty then
    true
  else if teams.isEmpty then
    false
  else
    teams.any (fun team => allowed.any (fun a => team = a))

/-- Session values relevant to GetUsername: the `authenticated` flag and the
optional `username` string stored at login. -/
structure Session where
  authenticated : Bool
  username : Option String
deriving Repr, DecidableEq

/-- Method GetUsername from backend/pkg/auth/auth.go (lines 225-246): requires
the session's authenticated flag and a non-empty username. -/
def GetUsername (s : Session) : Option String :=
  if !s.authenticated then
    none
  else
    match s.username with
    | none => none
    | some username => if username = "" then none else some username

/-- Method CreateTeamspace from teamspace.go (lines 54-83). The returned
struct's CreatedAt is `time.Now()` — the caller-side clock `clientNow` — while
the platform stamps the created namespace object with its own clock
`platformNow`. The namespace create call fails with alreadyExists when the
derived name collides. -/
def CreateTeamspace (st : ClusterState) (clientNow platformNow : Nat)
    (name owner initialHostedClusterRelease featureSet : String) :
    Except K8sError (ClusterState × Teamspace) :=
  let nspace := "teamspace-" ++ name
  let teamspace : Teamspace :=
    { name := name
      nspace := nspace
      createdAt := clientNow
      owner := owner
      deletionTimestamp := none }
  match findNamespace st nspace with
  | some _ => .error .alreadyExists
  | none =>
    let nsObj : NamespaceObj :=
      { name := nspace
        labels := [("teamspace", "true"), ("owner", owner), ("name", name)]
        annots := [("release", initialHostedClusterRelease), ("feature-set", featureSet)]
        creationTimestamp := platformNow
        deletionTimestamp := none }
    .ok ({ st with namespaces := st.namespaces ++ [nsObj] }, teamspace)

/-- Method DeleteTeamspace from teamspace.go (lines 85-88): a namespace delete
request. The platform marks the namespace with a deletion timestamp and
finalizes asynchronously; deleting an absent namespace is notFound. -/
def DeleteTeamspace (st : ClusterState) (now : Nat) (name : String) :
    Except K8sError ClusterState :=
  let nspace := "teamspace-" ++ name
  match findNamespace st nspace with
  | none => .error .notFound
  | some _ =>
    .ok { st with
          namespaces := st.namespaces.map (fun ns =>
            if ns.name = nspace then
              { ns with deletionTimestamp := some now }
            else ns) }

/-- Conversion of a listed namespace object to a Teamspace, shared shape of
the two list loops in teamspace.go (lines 99-114 and 129-144); `ownerField`
is `ns.Labels["owner"]` in ListTeamspaces and the `owner` argument in
ListTeamspacesByOwner. Go map access yields "" for a missing key. -/
def teamspaceOfNamespace (ns : NamespaceObj) (ownerField : String) : Teamspace :=
  { name := (lookupAssoc ns.labels "name").getD ""
    nspace := ns.name
    createdAt := ns.creationTimestamp
    owner := ownerField
    deletionTimestamp := ns.deletionTimestamp }

/-- Method ListTeamspaces from teamspace.go (lines 90-117): label selector
`teamspace=true`, owner taken from the namespace's own owner label. -/
def ListTeamspaces (st : ClusterState) : List Teamspace :=
  (st.namespaces.filter (fun ns => lookupAssoc ns.labels "teamspace" = some "true")).map
    (fun ns => teamspaceOfNamespace ns ((lookupAssoc ns.labels "owner").getD ""))

/-- Method ListTeamspacesByOwner from teamspace.go (lines 120-147): label
selector `teamspace=true,owner=<owner>`, owner field set to the argument. -/
def ListTeamspacesByOwner (st : ClusterState) (owner : String) : List Teamspace :=
  (st.namespaces.filter (fun ns =>
      lookupAssoc ns.labels "teamspace" = some "true" &&
      lookupAssoc ns.labels "owner" = some owner)).map
    (fun ns => teamspaceOfNamespace ns owner)

/-- Method GetKubeconfig from teamspace.go (lines 149-158): gets the secret
`teamspace-<name>-kubeconfig` in namespace `teamspace-<name>`; an absent
secret is an error, but a present secret returns `secret.Data["kubeconfig"]`
with a nil error even when that key is absent (a Go map read). -/
def GetKubeconfig (st : ClusterState) (name : String) :
    Except K8sError (Option String) :=
  let nspace := "teamspace-" ++ name
  let kubeconfigSecret := "teamspace-" ++ name ++ "-kubeconfig"
  match findSecret st nspace kubeconfigSecret with
  | none => .error .notFound
  | some secret => .ok (lookupAssoc secret.data "kubeconfig")

/-- Method IsTeamspaceOwner from teamspace.go (lines 161-174): reads the
namespace's owner label and compares it to the username; an absent namespace
is notFound, an existing namespace without the label is the manager-built
noOwnerLabel error. -/
def IsTeamspaceOwner (st : ClusterState) (name username : String) :
    Except K8sError Bool :=
  let nspace := "teamspace-" ++ name
  match findNamespace st nspace with
  | none => .error .notFound
  | some ns =>
    match lookupAssoc ns.labels "owner" with
    | none => .error (.noOwnerLabel nspace)
    | some owner => .ok (owner = username)

/-- The POST /api/teamspaces request body as the handler decodes it
(main.go lines 346-355): either malformed JSON, or a decoded body with the
three fields the struct declares. `clientOwner` stands for an `owner` field a
client may put in the raw JSON; the decoder has no matching struct field, so
it is carried here only to state that the handler never reads it. -/
inductive RequestBody where
  | malformed
  | decoded (name initialHostedClusterRelease featureSet : String)
      (clientOwner : Option String)
deriving Repr, DecidableEq

/-- Outcome of handleCreateTeamspace, one constructor per exit point of
main.go lines 303-382. -/
inductive CreateResult where
  | unauthorized
  | quotaExceeded
  | invalidBody
  | emptyName
  | createFailed (e : K8sError)
  | created (ts : Teamspace)
deriving Repr, DecidableEq

/-- Handler handleCreateTeamspace from main.go (lines 303-382): resolve the
username from the session, re-list the owner's teamspaces and reject at 3 or
more, then decode the body, reject an empty name, and call CreateTeamspace
with the session username as owner. Returns the HTTP outcome and the store
state after the call. -/
def handleCreateTeamspace (st : ClusterState) (sess : Session)
    (clientNow platformNow : Nat) (body : RequestBody) :
    CreateResult × ClusterState :=
  match GetUsername sess with
  | none => (.unauthorized, st)
  | some username =>
    let existingTeamspaces := ListTeamspacesByOwner st username
    if existingTeamspaces.length ≥ 3 then
      (.quotaExceeded, st)
    else
      match body with
      | .malformed => (.invalidBody, st)
      | .decoded name initialHostedClusterRelease featureSet _ =>
        if name = "" then
          (.emptyName, st)
        else
          match CreateTeamspace st clientNow platformNow name username
              initialHostedClusterRelease featureSet with
          | .error e => (.createFailed e, st)
          | .ok (st2, teamspace) => (.created teamspace, st2)

/-- Outcome of handleDeleteTeamspace, one constructor per exit point of
main.go lines 384-428. -/
inductive DeleteResult where
  | emptyId
  | unauthorized
  | ownershipCheckFailed (e : K8sError)
  | forbidden
  | deleteFailed (e : K8sError)
  | deleted
deriving Repr, DecidableEq

/-- Handler handleDeleteTeamspace from main.go (lines 384-428): reject an
empty id, resolve the username, check ownership via IsTeamspaceOwner (an
error fails the request, false is forbidden), then delete. -/
def handleDeleteTeamspace (st : ClusterState) (sess : Session) (now : Nat)
    (id : String) : DeleteResult × ClusterState :=
  if id = "" then
    (.emptyId, st)
  else
    match GetUsername sess with
    | none => (.unauthorized, st)
    | some username =>
      match IsTeamspaceOwner st id username with
      | .error e => (.ownershipCheckFailed e, st)
      | .ok false => (.forbidden, st)
      | .ok true =>
        match DeleteTeamspace st now id with
        | .error e => (.deleteFailed e, st)
        | .ok st2 => (.deleted, st2)

/-- Outcome of handleGetKubeconfig, one constructor per exit point of
main.go lines 430-469; `served` carries the bytes written (Go writes a nil
slice as an empty body, so the Option is kept as decoded). -/
inductive KubeconfigResult where
  | unauthorized
  | ownershipCheckFailed (e : K8sError)
  | forbidden
  | getFailed (e : K8sError)
  | served (data : Option String)
deriving Repr, DecidableEq

/-- Handler handleGetKubeconfig from main.go (lines 430-469): resolve the
username, check ownership, then fetch and serve the kubeconfig secret data.
It performs no write, so only the outcome is returned. -/
def handleGetKubeconfig (st : ClusterState) (sess : Session) (id : String) :
    KubeconfigResult :=
  match GetUsername sess with
  | none => .unauthorized
  | some username =>
    match IsTeamspaceOwner st id username with
    | .error e => .ownershipCheckFailed e
    | .ok false => .forbidden
    | .ok true =>
      match GetKubeconfig st id with
      | .error e => .getFailed e
      | .ok data => .served data

/-! Concrete fixtures used only as inputs to witness and counterexample
theorems. -/

/-- A namespace object shaped exactly as CreateTeamspace builds it. -/
def fixtureNs (name owner : String) (created : Nat) (deleted : Option Nat) :
    NamespaceObj :=
  { name := "teamspace-" ++ name
    labels := [("teamspace", "true"), ("owner", owner), ("name", name)]
    annots := [("release", "v1"), ("feature-set", "tp")]
    creationTimestamp := created
    deletionTimestamp := deleted }

/-- A session for the authenticated user alice. -/
def sessAlice : Session := { authenticated := true, username := some "alice" }

/-- A store where alice owns three teamspaces, one of them terminating. -/
def stThree : ClusterState :=
  { namespaces := [fixtureNs "a" "alice" 1 none, fixtureNs "b" "alice" 2 none,
                   fixtureNs "c" "alice" 3 (some 9)]
    secrets := [] }

/-- A store where alice owns one teamspace. -/
def stOne : ClusterState :=
  { namespaces := [fixtureNs "a" "alice" 1 none], secrets := [] }

/-- The Teamspace value returned by creating "dev" for alice at client
clock 5. -/
def tsDev : Teamspace :=
  { name := "dev", nspace := "teamspace-dev", createdAt := 5,
    owner := "alice", deletionTimestamp := none }

/-- The store stOne after creating "dev" for alice at platform clock 6. -/
def stOneDev : ClusterState :=
  { namespaces := [fixtureNs "a" "alice" 1 none, fixtureNs "dev" "alice" 6 none]
    secrets := [] }

/-! Theorems settling the claims. -/

/-- C1: the authorization predicate returns true whenever the allow-list is
empty (Go nil and empty slices are the same empty list here); when the
allow-list is non-empty it returns false on an empty team list, and otherwise
it returns true iff some team of the user occurs in the allow-list, so extra
non-matching teams cannot change the result. -/
theorem c1_isUserAllowed_spec (allowed teams : List String) :
    (allowed = [] → isUserAllowed allowed teams = true) ∧
    (allowed ≠ [] → teams = [] → isUserAllowed allowed teams = false) ∧
    (allowed ≠ [] →
      (isUserAllowed allowed teams = true ↔ ∃ t ∈ teams, t ∈ allowed)) := by
  refine ⟨fun h => ?_, fun h h2 => ?_, fun h => ?_⟩
  · simp [isUserAllowed, h]
  · have h1 : allowed.isEmpty = false := by
      cases allowed with
      | nil => exact absurd rfl h
      | cons a as => rfl
    simp [isUserAllowed, h1, h2]
  · have h1 : allowed.isEmpty = false := by
      cases allowed with
      | nil => exact absurd rfl h
      | cons a as => rfl
    cases teams with
    | nil => simp [isUserAllowed, h1]
    | cons t ts =>
      simp only [isUserAllowed, h1, Bool.false_eq_true, if_false,
        List.isEmpty_cons, List.any_eq_true, decide_eq_true_eq]
      constructor
      · rintro ⟨x, hx, a, ha, hax⟩
        exact ⟨x, hx, hax.symm ▸ ha⟩
      · rintro ⟨x, hx, hxa⟩
        exact ⟨x, hx, x, hxa, rfl⟩

/-- Witness for C1: concrete instances of all three clauses. -/
theorem c1_isUserAllowed_spec_witness :
    isUserAllowed [] ["x"] = true ∧
    isUserAllowed ["a"] [] = false ∧
    (isUserAllowed ["a"] ["b", "a"] = true ↔ ∃ t ∈ ["b", "a"], t ∈ ["a"]) :=
  ⟨(c1_isUserAllowed_spec [] ["x"]).1 rfl,
   (c1_isUserAllowed_spec ["a"] []).2.1 (by decide) rfl,
   (c1_isUserAllowed_spec ["a"] ["b", "a"]).2.2 (by decide)⟩

/-- C2: an authenticated owner whose current listing (active or terminating
entries alike) has exactly three teamspaces gets a QuotaExceeded rejection
from the create handler, for every request body, and the store after the
rejected call is the store before it. -/
theorem c2_quota_exact_three (st : ClusterState) (sess : Session)
    (clientNow platformNow : Nat) (body : RequestBody) (username : String)
    (hu : GetUsername sess = some username)
    (hq : (ListTeamspacesByOwner st username).length = 3) :
    handleCreateTeamspace st sess clientNow platformNow body
      = (.quotaExceeded, st) := by
  unfold handleCreateTeamspace
  rw [hu]
  simp [hq]

/-- Witness for C2: alice with three teamspaces, one of them terminating, is
rejected and the store is unchanged. -/
theorem c2_quota_exact_three_witness :
    GetUsername sessAlice = some "alice" ∧
    (ListTeamspacesByOwner stThree "alice").length = 3 ∧
    handleCreateTeamspace stThree sessAlice 5 6 (.decoded "d" "v1" "tp" none)
      = (.quotaExceeded, stThree) :=
  ⟨by decide, by decide,
   c2_quota_exact_three stThree sessAlice 5 6 (.decoded "d" "v1" "tp" none)
     "alice" (by decide) (by decide)⟩

/-- C10: the quota check precedes body reading and name validation; an
authenticated owner at or above three teamspaces is rejected with the quota
error for every body — malformed JSON and an empty name included — and the
store is unchanged. -/
theorem c10_quota_checked_before_body (st : ClusterState) (sess : Session)
    (clientNow platformNow : Nat) (username : String)
    (hu : GetUsername sess = some username)
    (hq : 3 ≤ (ListTeamspacesByOwner st username).length) :
    ∀ body, handleCreateTeamspace st sess clientNow platformNow body
      = (.quotaExceeded, st) := by
  intro body
  unfold handleCreateTeamspace
  rw [hu]
  simp [ge_iff_le, hq]

/-- Witness for C10: at quota, both a malformed body and an empty name give
the quota rejection, not the body or name error. -/
theorem c10_quota_checked_before_body_witness :
    handleCreateTeamspace stThree sessAlice 5 6 .malformed
      = (.quotaExceeded, stThree) ∧
    handleCreateTeamspace stThree sessAlice 5 6 (.decoded "" "v1" "tp" none)
      = (.quotaExceeded, stThree) :=
  ⟨c10_quota_checked_before_body stThree sessAlice 5 6 "alice" (by decide)
     (by decide) .malformed,
   c10_quota_checked_before_body stThree sessAlice 5 6 "alice" (by decide)
     (by decide) (.decoded "" "v1" "tp" none)⟩

/-- Counterexample for C8: a create request with an empty name from an owner
at quota fails with the quota error, not the empty-name (InvalidInput) error,
because the handler checks quota before validating the name. -/
theorem c8_counterexample :
    handleCreateTeamspace stThree sessAlice 5 6 (.decoded "" "v1" "tp" none)
      = (.quotaExceeded, stThree) ∧
    CreateResult.quotaExceeded ≠ CreateResult.emptyName := by
  constructor
  · decide
  · decide

/-- C8 amended: a create request with an empty name from an authenticated
owner below quota fails with the empty-name (InvalidInput) rejection and
leaves the store unchanged; and whatever the session, a request with an empty
name never creates a resource (the store after the call is the store before
it). -/
theorem c8_empty_name_rejected (st : ClusterState) (sess : Session)
    (clientNow platformNow : Nat) (r f : String) (co : Option String)
    (username : String)
    (hu : GetUsername sess = some username)
    (hq : (ListTeamspacesByOwner st username).length < 3) :
    handleCreateTeamspace st sess clientNow platformNow (.decoded "" r f co)
      = (.emptyName, st) ∧
    ∀ sess2 : Session,
      (handleCreateTeamspace st sess2 clientNow platformNow
        (.decoded "" r f co)).2 = st := by
  constructor
  · unfold handleCreateTeamspace
    rw [hu]
    dsimp only
    rw [if_neg (by omega), if_pos rfl]
  · intro sess2
    unfold handleCreateTeamspace
    cases GetUsername sess2 with
    | none => rfl
    | some u =>
      dsimp only
      split
      · rfl
      · rfl

/-- Witness for C8: alice with one teamspace sends an empty name and gets the
empty-name rejection with the store unchanged. -/
theorem c8_empty_name_rejected_witness :
    handleCreateTeamspace stOne sessAlice 5 6 (.decoded "" "v1" "tp" none)
      = (.emptyName, stOne) :=
  (c8_empty_name_rejected stOne sessAlice 5 6 "v1" "tp" none "alice"
    (by decide) (by decide)).1

/-- Auxiliary: find? over an append whose first part finds nothing continues
in the second part. -/
theorem find?_append_of_none {α : Type} (p : α → Bool) (l1 l2 : List α)
    (h : l1.find? p = none) : (l1 ++ l2).find? p = l2.find? p := by
  induction l1 with
  | nil => rfl
  | cons x xs ih =>
    simp only [List.find?] at h
    simp only [List.cons_append, List.find?]
    cases hp : p x with
    | true => rw [hp] at h; cases h
    | false => rw [hp] at h; exact ih h

/-- C4: every lifecycle operation derives its resource key from the teamspace
name by the same rule, the fixed prefix "teamspace-" followed by the name: a
successful create produces a namespace under that key (and reports it on the
returned Teamspace), create collides exactly when that key already exists,
delete and the ownership check report notFound exactly when that key is
absent, and the kubeconfig read reports notFound exactly when the scoped
secret under that key is absent — so two operations given the same name
address the same namespace resource. -/
theorem c4_namespace_key_derivation :
    (∀ st clientNow platformNow name owner r f st2 ts,
      CreateTeamspace st clientNow platformNow name owner r f = .ok (st2, ts) →
      ts.nspace = "teamspace-" ++ name ∧
      (findNamespace st2 ("teamspace-" ++ name)).isSome) ∧
    (∀ st clientNow platformNow name owner r f,
      CreateTeamspace st clientNow platformNow name owner r f
        = .error .alreadyExists ↔
      (findNamespace st ("teamspace-" ++ name)).isSome) ∧
    (∀ st now name,
      DeleteTeamspace st now name = .error .notFound ↔
        findNamespace st ("teamspace-" ++ name) = none) ∧
    (∀ st name username,
      IsTeamspaceOwner st name username = .error .notFound ↔
        findNamespace st ("teamspace-" ++ name) = none) ∧
    (∀ st name,
      GetKubeconfig st name = .error .notFound ↔
        findSecret st ("teamspace-" ++ name)
          ("teamspace-" ++ name ++ "-kubeconfig") = none) := by
  refine ⟨?_, ?_, ?_, ?_, ?_⟩
  · intro st clientNow platformNow name owner r f st2 ts h
    unfold CreateTeamspace at h
    dsimp only at h
    cases hf : findNamespace st ("teamspace-" ++ name) with
    | some ns => rw [hf] at h; cases h
    | none =>
      rw [hf] at h
      cases h
      refine ⟨rfl, ?_⟩
      unfold findNamespace at hf ⊢
      rw [find?_append_of_none _ _ _ hf]
      simp [List.find?]
  · intro st clientNow platformNow name owner r f
    unfold CreateTeamspace
    dsimp only
    cases hf : findNamespace st ("teamspace-" ++ name) with
    | some ns => simp
    | none => simp
  · intro st now name
    unfold DeleteTeamspace
    dsimp only
    cases hf : findNamespace st ("teamspace-" ++ name) with
    | some ns => simp
    | none => simp
  · intro st name username
    unfold IsTeamspaceOwner
    dsimp only
    cases hf : findNamespace st ("teamspace-" ++ name) with
    | some ns =>
      cases hl : lookupAssoc ns.labels "owner" with
      | none => simp [hl]
      | some owner => simp [hl]
    | none => simp
  · intro st name
    unfold GetKubeconfig
    dsimp only
    cases hf : findSecret st ("teamspace-" ++ name)
        ("teamspace-" ++ name ++ "-kubeconfig") with
    | some s => simp
    | none => simp

/-- Witness for C4: creating "dev" on the one-teamspace store places the
resource under the key "teamspace-dev". -/
theorem c4_namespace_key_derivation_witness :
    tsDev.nspace = "teamspace-" ++ "dev" ∧
    (findNamespace stOneDev ("teamspace-" ++ "dev")).isSome :=
  c4_namespace_key_derivation.1 stOne 5 6 "dev" "alice" "v1" "tp" stOneDev
    tsDev (by rfl)

/-- Auxiliary: the owner entry of the label map CreateTeamspace writes. -/
theorem lookupAssoc_labels_owner (owner name : String) :
    lookupAssoc [("teamspace", "true"), ("owner", owner), ("name", name)]
      "owner" = some owner := by
  unfold lookupAssoc
  rw [if_neg (by decide)]
  unfold lookupAssoc
  rw [if_pos rfl]

/-- Auxiliary: the teamspace marker entry of the label map CreateTeamspace
writes. -/
theorem lookupAssoc_labels_teamspace (owner name : String) :
    lookupAssoc [("teamspace", "true"), ("owner", owner), ("name", name)]
      "teamspace" = some "true" := by
  unfold lookupAssoc
  rw [if_pos rfl]

/-- Auxiliary: the name entry of the label map CreateTeamspace writes. -/
theorem lookupAssoc_labels_name (owner name : String) :
    lookupAssoc [("teamspace", "true"), ("owner", owner), ("name", name)]
      "name" = some name := by
  unfold lookupAssoc
  rw [if_neg (by decide)]
  unfold lookupAssoc
  rw [if_neg (by decide)]
  unfold lookupAssoc
  rw [if_pos rfl]

/-- Auxiliary: after a successful create, the derived key finds exactly the
namespace object the create appended. -/
theorem findNamespace_after_create (st : ClusterState)
    (clientNow platformNow : Nat) (name owner r f : String)
    (st2 : ClusterState) (ts : Teamspace)
    (hcr : CreateTeamspace st clientNow platformNow name owner r f
      = .ok (st2, ts)) :
    st2.namespaces = st.namespaces ++
      [{ name := "teamspace-" ++ name
         labels := [("teamspace", "true"), ("owner", owner), ("name", name)]
         annots := [("release", r), ("feature-set", f)]
         creationTimestamp := platformNow
         deletionTimestamp := none }] ∧
    st2.secrets = st.secrets ∧
    ts = { name := name, nspace := "teamspace-" ++ name,
           createdAt := clientNow, owner := owner,
           deletionTimestamp := none } ∧
    findNamespace st ("teamspace-" ++ name) = none := by
  unfold CreateTeamspace at hcr
  dsimp only at hcr
  cases hf : findNamespace st ("teamspace-" ++ name) with
  | some ns => rw [hf] at hcr; cases hcr
  | none =>
    rw [hf] at hcr
    cases hcr
    exact ⟨rfl, rfl, rfl, rfl⟩

/-- Auxiliary: after a successful create, the derived key finds exactly the
namespace object the create appended. -/
theorem findNamespace_create_key (st : ClusterState)
    (clientNow platformNow : Nat) (name owner r f : String)
    (st2 : ClusterState) (ts : Teamspace)
    (hcr : CreateTeamspace st clientNow platformNow name owner r f
      = .ok (st2, ts)) :
    findNamespace st2 ("teamspace-" ++ name) = some
      { name := "teamspace-" ++ name
        labels := [("teamspace", "true"), ("owner", owner), ("name", name)]
        annots := [("release", r), ("feature-set", f)]
        creationTimestamp := platformNow
        deletionTimestamp := none } := by
  obtain ⟨hns, -, -, hf⟩ := findNamespace_after_create st clientNow
    platformNow name owner r f st2 ts hcr
  unfold findNamespace at hf ⊢
  rw [hns, find?_append_of_none _ _ _ hf]
  simp [List.find?]

/-- C7: a teamspace created with owner A answers the ownership check with
`.ok (A = username)`: true exactly for the creator A, false — not an error —
for every other identity; once the namespace exists with the owner label the
create wrote, the check never errors. -/
theorem c7_isTeamspaceOwner_after_create (st : ClusterState)
    (clientNow platformNow : Nat) (name A r f : String)
    (st2 : ClusterState) (ts : Teamspace)
    (hcr : CreateTeamspace st clientNow platformNow name A r f
      = .ok (st2, ts)) :
    ∀ username, IsTeamspaceOwner st2 name username = .ok (A = username) ∧
      (IsTeamspaceOwner st2 name username = .ok true ↔ username = A) := by
  intro username
  obtain ⟨hns, -, -, hf⟩ := findNamespace_after_create st clientNow platformNow
    name A r f st2 ts hcr
  have key : findNamespace st2 ("teamspace-" ++ name) = some
      { name := "teamspace-" ++ name
        labels := [("teamspace", "true"), ("owner", A), ("name", name)]
        annots := [("release", r), ("feature-set", f)]
        creationTimestamp := platformNow
        deletionTimestamp := none } := by
    unfold findNamespace at hf ⊢
    rw [hns, find?_append_of_none _ _ _ hf]
    simp [List.find?]
  have h1 : IsTeamspaceOwner st2 name username = .ok (A = username) := by
    unfold IsTeamspaceOwner
    dsimp only
    rw [key]
    dsimp only
    rw [lookupAssoc_labels_owner]
  refine ⟨h1, ?_⟩
  rw [h1]
  constructor
  · intro h2
    have h3 : (decide (A = username)) = true := by
      injection h2
    exact (of_decide_eq_true h3).symm
  · intro h2
    rw [h2]
    simp

/-- Witness for C7: on the store where alice created "dev", the ownership
check answers false for bob and true for alice, without error. -/
theorem c7_isTeamspaceOwner_after_create_witness :
    IsTeamspaceOwner stOneDev "dev" "bob" = .ok ("alice" = "bob") ∧
    (IsTeamspaceOwner stOneDev "dev" "bob" = .ok true ↔ "bob" = "alice") :=
  c7_isTeamspaceOwner_after_create stOne 5 6 "dev" "alice" "v1" "tp" stOneDev
    tsDev (by rfl) "bob"

/-- Counterexample for C6: a store whose kubeconfig secret for "dev" exists
but has no "kubeconfig" data field; GetKubeconfig nevertheless succeeds with
empty (Go nil) data instead of failing with NotFound, refuting "it never
returns a success result for an absent field". -/
theorem c6_counterexample :
    GetKubeconfig
      { namespaces := [fixtureNs "dev" "alice" 1 none]
        secrets := [{ nspace := "teamspace-dev",
                      name := "teamspace-dev-kubeconfig",
                      data := [("other", "x")] }] } "dev" = .ok none ∧
    lookupAssoc [("other", "x")] "kubeconfig" = none := ⟨rfl, rfl⟩

/-- C6 amended: GetKubeconfig fails with NotFound exactly when the scoped
secret is absent; when the secret exists it always succeeds, returning the
value of the "kubeconfig" data field as a Go map read — so an absent field
yields a success carrying nil data, not a NotFound error, and the only error
case is the absent secret. -/
theorem c6_getKubeconfig_spec (st : ClusterState) (name : String) :
    (findSecret st ("teamspace-" ++ name)
        ("teamspace-" ++ name ++ "-kubeconfig") = none →
      GetKubeconfig st name = .error .notFound) ∧
    (∀ secret, findSecret st ("teamspace-" ++ name)
        ("teamspace-" ++ name ++ "-kubeconfig") = some secret →
      GetKubeconfig st name = .ok (lookupAssoc secret.data "kubeconfig")) := by
  constructor
  · intro h
    unfold GetKubeconfig
    dsimp only
    rw [h]
  · intro secret h
    unfold GetKubeconfig
    dsimp only
    rw [h]

/-- Witness for C6: the absent-secret case errors and the present-secret case
returns the stored field. -/
theorem c6_getKubeconfig_spec_witness :
    GetKubeconfig stOne "dev" = .error .notFound ∧
    GetKubeconfig
      { namespaces := [fixtureNs "dev" "alice" 1 none]
        secrets := [{ nspace := "teamspace-dev",
                      name := "teamspace-dev-kubeconfig",
                      data := [("kubeconfig", "yaml")] }] } "dev"
      = .ok (some "yaml") := by
  constructor
  · exact (c6_getKubeconfig_spec stOne "dev").1 (by rfl)
  · exact (c6_getKubeconfig_spec _ "dev").2
      { nspace := "teamspace-dev", name := "teamspace-dev-kubeconfig",
        data := [("kubeconfig", "yaml")] } (by rfl)

/-- Counterexample for C5: creating "dev" with the caller's clock at 1 while
the platform's clock is at 2 returns a Teamspace whose createdAt is 1 — the
client-side `time.Now()` — while the namespace resource the platform stores
carries creation timestamp 2; the Teamspace returned by Create does not carry
the platform's creation timestamp. -/
theorem c5_counterexample :
    CreateTeamspace { namespaces := [], secrets := [] } 1 2 "dev" "alice"
        "v1" "tp" =
      .ok ({ namespaces := [{ name := "teamspace-dev"
                              labels := [("teamspace", "true"),
                                         ("owner", "alice"), ("name", "dev")]
                              annots := [("release", "v1"),
                                         ("feature-set", "tp")]
                              creationTimestamp := 2
                              deletionTimestamp := none }]
             secrets := [] },
           { name := "dev", nspace := "teamspace-dev", createdAt := 1,
             owner := "alice", deletionTimestamp := none }) ∧
    (1 : Nat) ≠ 2 := ⟨rfl, by decide⟩

/-- C5 amended: the createdAt exposed by List and ListByOwner is the
platform's creation timestamp of the namespace resource; the Teamspace
returned by Create instead carries the caller-side clock value at call time,
while the stored namespace resource carries the platform timestamp. -/
theorem c5_list_uses_platform_timestamp :
    (∀ st ts, ts ∈ ListTeamspaces st →
      ∃ ns ∈ st.namespaces, ts.nspace = ns.name ∧
        ts.createdAt = ns.creationTimestamp) ∧
    (∀ st owner ts, ts ∈ ListTeamspacesByOwner st owner →
      ∃ ns ∈ st.namespaces, ts.nspace = ns.name ∧
        ts.createdAt = ns.creationTimestamp) ∧
    (∀ st clientNow platformNow name owner r f st2 ts,
      CreateTeamspace st clientNow platformNow name owner r f
        = .ok (st2, ts) →
      ts.createdAt = clientNow ∧
      ∀ ns ∈ st2.namespaces, ns.name = ts.nspace →
        ns.creationTimestamp = platformNow) := by
  refine ⟨?_, ?_, ?_⟩
  · intro st ts h
    unfold ListTeamspaces at h
    rcases List.mem_map.mp h with ⟨ns, hmem, rfl⟩
    exact ⟨ns, (List.mem_filter.mp hmem).1, rfl, rfl⟩
  · intro st owner ts h
    unfold ListTeamspacesByOwner at h
    rcases List.mem_map.mp h with ⟨ns, hmem, rfl⟩
    exact ⟨ns, (List.mem_filter.mp hmem).1, rfl, rfl⟩
  · intro st clientNow platformNow name owner r f st2 ts hcr
    obtain ⟨hns, -, hts, hf⟩ := findNamespace_after_create st clientNow
      platformNow name owner r f st2 ts hcr
    subst hts
    refine ⟨rfl, ?_⟩
    intro ns hmem hname
    rw [hns] at hmem
    rcases List.mem_append.mp hmem with hold | hnew
    · exfalso
      have h4 := List.find?_eq_none.mp hf ns hold
      simp only [decide_eq_true_eq] at h4
      exact h4 hname
    · rcases List.mem_singleton.mp hnew with rfl
      rfl

/-- Witness for C5: the concrete create of "dev" at client clock 5 and
platform clock 6 returns createdAt 5 while the stored resource carries 6. -/
theorem c5_list_uses_platform_timestamp_witness :
    tsDev.createdAt = 5 ∧
    ∀ ns ∈ stOneDev.namespaces, ns.name = tsDev.nspace →
      ns.creationTimestamp = 6 :=
  c5_list_uses_platform_timestamp.2.2 stOne 5 6 "dev" "alice" "v1" "tp"
    stOneDev tsDev (by rfl)

/-- C9: a create that succeeds through the handler is immediately visible to
ListTeamspacesByOwner for the session identity: the listing contains an entry
whose name is the created name, whose owner is the creating identity, and
whose deletionTimestamp is absent. -/
theorem c9_create_then_listByOwner (st : ClusterState) (sess : Session)
    (clientNow platformNow : Nat) (name r f : String) (co : Option String)
    (ts : Teamspace) (st2 : ClusterState)
    (h : handleCreateTeamspace st sess clientNow platformNow
      (.decoded name r f co) = (.created ts, st2)) :
    ∃ username, GetUsername sess = some username ∧
      ∃ e ∈ ListTeamspacesByOwner st2 username,
        e.name = name ∧ e.owner = username ∧ e.deletionTimestamp = none := by
  unfold handleCreateTeamspace at h
  cases hu : GetUsername sess with
  | none => rw [hu] at h; cases h
  | some username =>
    rw [hu] at h
    dsimp only at h
    by_cases hq : (ListTeamspacesByOwner st username).length ≥ 3
    · rw [if_pos hq] at h; cases h
    · rw [if_neg hq] at h
      by_cases hn : name = ""
      · rw [if_pos hn] at h; cases h
      · rw [if_neg hn] at h
        cases hcr : CreateTeamspace st clientNow platformNow name username
            r f with
        | error e => rw [hcr] at h; cases h
        | ok p =>
          obtain ⟨stc, tsc⟩ := p
          rw [hcr] at h
          cases h
          obtain ⟨hns, -, -, -⟩ := findNamespace_after_create st clientNow
            platformNow name username r f _ _ hcr
          refine ⟨username, rfl, ?_⟩
          refine ⟨teamspaceOfNamespace
            { name := "teamspace-" ++ name
              labels := [("teamspace", "true"), ("owner", username),
                         ("name", name)]
              annots := [("release", r), ("feature-set", f)]
              creationTimestamp := platformNow
              deletionTimestamp := none } username, ?_, ?_, rfl, rfl⟩
          · unfold ListTeamspacesByOwner
            refine List.mem_map.mpr ⟨_, List.mem_filter.mpr ⟨?_, ?_⟩, rfl⟩
            · rw [hns]
              exact List.mem_append_right _ (List.mem_singleton_self _)
            · simp [lookupAssoc_labels_teamspace, lookupAssoc_labels_owner]
          · unfold teamspaceOfNamespace
            dsimp only
            rw [lookupAssoc_labels_name]
            rfl

/-- Witness for C9: after alice creates "dev", her listing contains the entry
(name "dev", owner "alice", no deletion timestamp). -/
theorem c9_create_then_listByOwner_witness :
    ∃ username, GetUsername sessAlice = some username ∧
      ∃ e ∈ ListTeamspacesByOwner stOneDev username,
        e.name = "dev" ∧ e.owner = username ∧ e.deletionTimestamp = none :=
  c9_create_then_listByOwner stOne sessAlice 5 6 "dev" "v1" "tp" none tsDev
    stOneDev (by rfl)

/-- C3: the owner recorded at creation is the authenticated session identity,
verbatim: (1) the create handler's outcome is independent of any owner value
the client puts in the body; (2) a successful create returns a Teamspace
whose owner is the resolved session username and writes that username as the
namespace's owner label; (3-5) without a resolved identity no lifecycle
operation executes — the create and delete handlers leave the store unchanged
and refuse, and the kubeconfig handler (which never writes) refuses; (6) a
create leaves every pre-existing namespace object untouched; (7) a delete
changes no namespace's name or labels — so no operation mutates the owner
label after creation. -/
theorem c3_owner_is_session_identity :
    (∀ st sess clientNow platformNow n r f o1 o2,
      handleCreateTeamspace st sess clientNow platformNow (.decoded n r f o1)
        = handleCreateTeamspace st sess clientNow platformNow
            (.decoded n r f o2)) ∧
    (∀ st sess clientNow platformNow body ts st2,
      handleCreateTeamspace st sess clientNow platformNow body
        = (.created ts, st2) →
      ∃ username, GetUsername sess = some username ∧ ts.owner = username ∧
        ∃ ns, findNamespace st2 ts.nspace = some ns ∧
          lookupAssoc ns.labels "owner" = some username) ∧
    (∀ st sess clientNow platformNow body, GetUsername sess = none →
      handleCreateTeamspace st sess clientNow platformNow body
        = (.unauthorized, st)) ∧
    (∀ st sess now id, GetUsername sess = none →
      (handleDeleteTeamspace st sess now id).2 = st ∧
      (handleDeleteTeamspace st sess now id).1 ≠ .deleted) ∧
    (∀ st sess id, GetUsername sess = none →
      handleGetKubeconfig st sess id = .unauthorized) ∧
    (∀ st sess clientNow platformNow body ns, ns ∈ st.namespaces →
      ns ∈ (handleCreateTeamspace st sess clientNow
        platformNow body).2.namespaces) ∧
    (∀ st sess now id ns2,
      ns2 ∈ (handleDeleteTeamspace st sess now id).2.namespaces →
      ∃ ns ∈ st.namespaces, ns2.name = ns.name ∧ ns2.labels = ns.labels) := by
  refine ⟨?_, ?_, ?_, ?_, ?_, ?_, ?_⟩
  · intro st sess clientNow platformNow n r f o1 o2
    unfold handleCreateTeamspace
    cases GetUsername sess with
    | none => rfl
    | some u => rfl
  · intro st sess clientNow platformNow body ts st2 h
    unfold handleCreateTeamspace at h
    cases hu : GetUsername sess with
    | none => rw [hu] at h; cases h
    | some username =>
      rw [hu] at h
      dsimp only at h
      by_cases hq : (ListTeamspacesByOwner st username).length ≥ 3
      · rw [if_pos hq] at h; cases h
      · rw [if_neg hq] at h
        cases body with
        | malformed => cases h
        | decoded n r f o =>
          dsimp only at h
          by_cases hn : n = ""
          · rw [if_pos hn] at h; cases h
          · rw [if_neg hn] at h
            cases hcr : CreateTeamspace st clientNow platformNow n username
                r f with
            | error e => rw [hcr] at h; cases h
            | ok p =>
              obtain ⟨stc, tsc⟩ := p
              rw [hcr] at h
              cases h
              obtain ⟨-, -, hts, -⟩ := findNamespace_after_create st clientNow
                platformNow n username r f _ _ hcr
              subst hts
              exact ⟨username, rfl, rfl, _,
                findNamespace_create_key st clientNow platformNow n username
                  r f _ _ hcr,
                lookupAssoc_labels_owner username n⟩
  · intro st sess clientNow platformNow body hu
    unfold handleCreateTeamspace
    rw [hu]
  · intro st sess now id hu
    unfold handleDeleteTeamspace
    by_cases hid : id = ""
    · rw [if_pos hid]
      exact ⟨rfl, fun h2 => DeleteResult.noConfusion h2⟩
    · rw [if_neg hid, hu]
      exact ⟨rfl, fun h2 => DeleteResult.noConfusion h2⟩
  · intro st sess id hu
    unfold handleGetKubeconfig
    rw [hu]
  · intro st sess clientNow platformNow body ns hmem
    unfold handleCreateTeamspace
    cases hu : GetUsername sess with
    | none => exact hmem
    | some u =>
      dsimp only
      split
      · exact hmem
      · cases body with
        | malformed => exact hmem
        | decoded n r f o =>
          dsimp only
          split
          · exact hmem
          · cases hcr : CreateTeamspace st clientNow platformNow n u r f with
            | error e => exact hmem
            | ok p =>
              obtain ⟨stc, tsc⟩ := p
              obtain ⟨hns, -, -, -⟩ := findNamespace_after_create st clientNow
                platformNow n u r f stc tsc hcr
              dsimp only
              rw [hns]
              exact List.mem_append_left _ hmem
  · intro st sess now id ns2 hmem
    unfold handleDeleteTeamspace at hmem
    by_cases hid : id = ""
    · rw [if_pos hid] at hmem
      exact ⟨ns2, hmem, rfl, rfl⟩
    · rw [if_neg hid] at hmem
      cases hu : GetUsername sess with
      | none => rw [hu] at hmem; exact ⟨ns2, hmem, rfl, rfl⟩
      | some u =>
        rw [hu] at hmem
        dsimp only at hmem
        cases ho : IsTeamspaceOwner st id u with
        | error e => rw [ho] at hmem; exact ⟨ns2, hmem, rfl, rfl⟩
        | ok b =>
          rw [ho] at hmem
          cases b with
          | false =>
            dsimp only at hmem
            exact ⟨ns2, hmem, rfl, rfl⟩
          | true =>
            dsimp only at hmem
            cases hd : DeleteTeamspace st now id with
            | error e => rw [hd] at hmem; exact ⟨ns2, hmem, rfl, rfl⟩
            | ok std =>
              rw [hd] at hmem
              dsimp only at hmem
              unfold DeleteTeamspace at hd
              dsimp only at hd
              cases hf : findNamespace st ("teamspace-" ++ id) with
              | none => rw [hf] at hd; cases hd
              | some ns0 =>
                rw [hf] at hd
                cases hd
                rcases List.mem_map.mp hmem with ⟨ns, hns, rfl⟩
                refine ⟨ns, hns, ?_⟩
                by_cases h2 : ns.name = "teamspace-" ++ id
                · rw [if_pos h2]
                  exact ⟨rfl, rfl⟩
                · rw [if_neg h2]
                  exact ⟨rfl, rfl⟩

/-- Witness for C3: alice's session creates "dev" with a client-supplied
owner value "mallory" in the body; the created teamspace and namespace label
carry "alice", the session identity. -/
theorem c3_owner_is_session_identity_witness :
    ∃ username, GetUsername sessAlice = some username ∧
      tsDev.owner = username ∧
      ∃ ns, findNamespace stOneDev tsDev.nspace = some ns ∧
        lookupAssoc ns.labels "owner" = some username :=
  c3_owner_is_session_identity.2.1 stOne sessAlice 5 6
    (.decoded "dev" "v1" "tp" (some "mallory")) tsDev stOneDev (by rfl)
